import Mathlib

/-!
Verification of the opencode-browser Visual Output & Session Capture Pipeline.

Shallow embedding of the TypeScript sources:
  * `src/terminal/graphics.ts`  — graphics-protocol capability detection
  * `src/terminal/display.ts`   — kitty / iTerm2 frame encoding
  * `src/browser/session.ts`    — console/network event collector, teardown
  * `examples/usage.md` (AwritManager) — external renderer supervisor

Environment interactions (TTY state, environment variables, the bounded
kitty query probe, subprocess state) are represented as explicit data so
the control flow of the source functions becomes pure and provable.
-/

/-! ## Terminal graphics capability detection (`src/terminal/graphics.ts`) -/

/-- JS `haystack.startsWith`-style check on character lists (needle first). -/
def startsWithList : List Char → List Char → Bool
  | [], _ => true
  | _ :: _, [] => false
  | a :: as, b :: bs => a == b && startsWithList as bs

/-- Helper for substring search: does `needle` occur in the list? -/
def includesAux (needle : List Char) : List Char → Bool
  | [] => needle.isEmpty
  | c :: rest => startsWithList needle (c :: rest) || includesAux needle rest

/-- JS `haystack.includes(needle)` substring containment on strings. -/
def strIncludes (haystack needle : String) : Bool :=
  includesAux needle.data haystack.data

/-- The `GraphicsProtocol` from `graphics.ts`: `'kitty' | 'iterm2' | 'sixel' | 'none'`. -/
inductive GraphicsProtocol where
  | kitty
  | iterm2
  | sixel
  | none
deriving DecidableEq, Repr

/-- The `GraphicsCapabilities` from `graphics.ts`:
`{ protocol; supported : boolean; reason?: string }`. -/
structure GraphicsCapabilities where
  protocol : GraphicsProtocol
  supported : Bool
  reason : Option String
deriving DecidableEq, Repr

/-- The ambient terminal environment consulted by the probes.
`kittyQueryResponds` abstracts "the terminal answers the in-band kitty
graphics query with an `\x1b_Gi=` marker within the 100ms timeout";
the remaining fields are `process.stdout.isTTY` and the environment
variables read by `graphics.ts` (absent = `Option.none`). -/
structure TermEnv where
  isTTY : Bool
  kittyQueryResponds : Bool
  termProgram : Option String
  lcTerminal : Option String
  term : Option String
  xtermVersion : Option String
deriving DecidableEq, Repr

/-- The `supportsKittyGraphics` (`graphics.ts` lines 29–65).  Returns the probe
result together with a flag recording whether any I/O-based probing was
performed: with no TTY attached the function returns `false` immediately,
before writing the query escape sequence; otherwise it writes the query
(I/O) and succeeds iff the terminal responds within the timeout. -/
def supportsKittyGraphics (env : TermEnv) : Bool × Bool :=
  if !env.isTTY then (false, false)
  else (env.kittyQueryResponds, true)

/-- The `supportsITerm2Graphics` (`graphics.ts` lines 67–70):
`TERM_PROGRAM === 'iTerm.app' || LC_TERMINAL === 'iTerm2'`. -/
def supportsITerm2Graphics (env : TermEnv) : Bool :=
  env.termProgram == some "iTerm.app" || env.lcTerminal == some "iTerm2"

/-- The `supportsSixelGraphics` (`graphics.ts` lines 72–80):
`TERM` contains `xterm`/`mlterm`/`yaft`, or `XTERM_VERSION` is nonempty
(absent environment variables default to the empty string). -/
def supportsSixelGraphics (env : TermEnv) : Bool :=
  let term := env.term.getD ""
  let xtermVersion := env.xtermVersion.getD ""
  strIncludes term "xterm" || strIncludes term "mlterm" ||
    strIncludes term "yaft" || decide (xtermVersion.length > 0)

/-- The literal reason string returned by `detectGraphicsProtocol` when no
protocol is detected (`graphics.ts` line 25). -/
def noProtocolReason : String :=
  "No supported graphics protocol detected. Please use Kitty, Ghostty, iTerm2, or a Sixel-compatible terminal."

/-- The `detectGraphicsProtocol` (`graphics.ts` lines 9–27).  Tries the kitty
query probe, then the iTerm2 environment-variable probe, then the sixel
terminal-type heuristic, first success winning.  The second component
records whether I/O-based probing was performed (it is exactly the
I/O flag of the kitty probe, the only probe that does I/O). -/
def detectGraphicsProtocol (env : TermEnv) : GraphicsCapabilities × Bool :=
  let probe := supportsKittyGraphics env
  if probe.1 then (⟨.kitty, true, Option.none⟩, probe.2)
  else if supportsITerm2Graphics env then (⟨.iterm2, true, Option.none⟩, probe.2)
  else if supportsSixelGraphics env then (⟨.sixel, true, Option.none⟩, probe.2)
  else (⟨.none, false, some noProtocolReason⟩, probe.2)

/-- The `validateTerminalSupport` (`graphics.ts` lines 82–95).  When the
detected capability is unsupported it prints an explanatory message block
and calls `process.exit(1)`.  Modelled as the list of printed lines
together with the exit code requested (`Option.none` = no exit). -/
def validateTerminalSupport (env : TermEnv) : List String × Option Nat :=
  let caps := (detectGraphicsProtocol env).1
  if !caps.supported then
    (["\n❌ Terminal Graphics Not Supported\n",
      caps.reason.getD "undefined",
      "\nRecommended terminals:",
      "  • Kitty: https://sw.kovidgoyal.net/kitty/",
      "  • Ghostty: https://ghostty.org/",
      "  • iTerm2: https://iterm2.com/ (macOS)",
      "  • WezTerm: https://wezfurlong.org/wezterm/\n"], some 1)
  else ([], Option.none)

/-- Model of the display initialization method of `TerminalDisplay`
(`display.ts` lines 12–18): throws `caps.reason || 'Terminal graphics not
supported'` when the capability is unsupported, otherwise stores and
returns the detected protocol. -/
def TerminalDisplay.setup (env : TermEnv) : Except String GraphicsProtocol :=
  let caps := (detectGraphicsProtocol env).1
  if !caps.supported then
    .error (caps.reason.getD "Terminal graphics not supported")
  else
    .ok caps.protocol

/-- Is the protocol the `'none'` variant? -/
def protocolIsNone : GraphicsProtocol → Bool
  | .none => true
  | _ => false

/-! ## Kitty frame encoding (`src/terminal/display.ts`) -/

/-- The base64 alphabet used by Node's `Buffer.toString('base64')`. -/
def base64Chars : List Char :=
  "ABCDEFGHIJKLMNOPQRSTUVWXYZabcdefghijklmnopqrstuvwxyz0123456789+/".data

/-- The base64 digit for a 6-bit group. -/
def b64digit (n : Nat) : Char := base64Chars.getD (n % 64) 'A'

/-- RFC 4648 base64 encoding of a byte sequence (bytes taken mod 256),
as produced by `imageBuffer.toString('base64')` in `displayKitty`,
including `=` padding. -/
def base64encode : List Nat → List Char
  | [] => []
  | [b1] =>
      let b1 := b1 % 256
      [b64digit (b1 / 4), b64digit (b1 % 4 * 16), '=', '=']
  | [b1, b2] =>
      let n := b1 % 256 * 256 + b2 % 256
      [b64digit (n / 1024), b64digit (n / 16 % 64), b64digit (n % 16 * 4), '=']
  | b1 :: b2 :: b3 :: rest =>
      let n := b1 % 256 * 65536 + b2 % 256 * 256 + b3 % 256
      b64digit (n / 262144) :: b64digit (n / 4096 % 64) :: b64digit (n / 64 % 64) ::
        b64digit (n % 64) :: base64encode rest

/-- The `base64Data.match(/.{1,4096}/g) || []` on a newline-free string:
greedy split into consecutive chunks of at most 4096 characters
(the empty string yields no chunks, matching `match` returning `null`). -/
def chunks4096 (l : List Char) : List (List Char) :=
  if l.isEmpty then []
  else l.take 4096 :: chunks4096 (l.drop 4096)
termination_by l.length
decreasing_by
  have hl : l ≠ [] := by
    intro h
    simp [h] at *
  have : 0 < l.length := List.length_pos.mpr hl
  simp [List.length_drop]
  omega

/-- One kitty-protocol escape sequence emitted by `displayKitty`: the first
chunk's control sequence `\x1b_Gf=100,a=T,t=d,s=w,v=h,m=m;payload\x1b\`
carries the format tag and display size, subsequent chunks are
`\x1b_Gm=m;payload\x1b\` carrying only the more-data flag. -/
inductive KittyPacket where
  | first (format width height m : Nat) (payload : List Char)
  | cont (m : Nat) (payload : List Char)
deriving DecidableEq, Repr

/-- The more-data flag `m` carried by a packet. -/
def packetFlag : KittyPacket → Nat
  | .first _ _ _ m _ => m
  | .cont m _ => m

/-- The base64 payload carried by a packet. -/
def packetPayload : KittyPacket → List Char
  | .first _ _ _ _ p => p
  | .cont _ p => p

/-- JS `options.width || 80`: `undefined` and `0` are falsy and yield the
default. -/
def jsOr (o : Option Nat) (dflt : Nat) : Nat :=
  match o with
  | Option.none => dflt
  | some w => if w = 0 then dflt else w

/-- The indexed emission loop of `displayKitty` (`display.ts` lines 40–52):
for chunk `i`, `m = isLast ? 0 : 1`; chunk 0 gets the `first` control
sequence with format tag `100` and the cell dimensions, later chunks get
a `cont` sequence with only the flag. -/
def mkKittyPackets (chunks : List (List Char)) (width height : Nat) : List KittyPacket :=
  (List.range chunks.length).map fun i =>
    let m := if i = chunks.length - 1 then 0 else 1
    if i = 0 then KittyPacket.first 100 width height m (chunks.getD i [])
    else KittyPacket.cont m (chunks.getD i [])

/-- The `TerminalDisplay.displayKitty` (`display.ts` lines 33–55): base64-encode
the buffer, split into chunks of at most 4096 characters, and emit the
control sequences. -/
def displayKitty (imageBuffer : List Nat) (optWidth optHeight : Option Nat) :
    List KittyPacket :=
  let base64Data := base64encode imageBuffer
  let chunks := chunks4096 base64Data
  mkKittyPackets chunks (jsOr optWidth 80) (jsOr optHeight 40)

/-! ## Console/network event collector (`src/browser/session.ts`) -/

/-- The `ConsoleMessage['type']` from `session.ts`. -/
inductive ConsoleType where
  | log
  | info
  | warn
  | error
  | debug
deriving DecidableEq, Repr

/-- The `ConsoleMessage` from `session.ts`. -/
structure ConsoleMessage where
  type : ConsoleType
  text : String
  timestamp : Nat
deriving DecidableEq, Repr

/-- The `NetworkRequest` from `session.ts`; `status?: number` is `Option Nat`. -/
structure NetworkRequest where
  url : String
  method : String
  status : Option Nat
  timestamp : Nat
deriving DecidableEq, Repr

/-- The collector's buffers (`consoleLogs` / `networkRequests` fields of
`BrowserSessionManager`). -/
structure SessionState where
  consoleLogs : List ConsoleMessage
  networkRequests : List NetworkRequest
deriving DecidableEq, Repr

/-- The empty buffers a fresh `BrowserSessionManager` starts with. -/
def initialSessionState : SessionState := ⟨[], []⟩

/-- The `page.on('console', ...)` handler (`session.ts` lines 66–73):
append the message to `consoleLogs`. -/
def onConsole (st : SessionState) (msg : ConsoleMessage) : SessionState :=
  { st with consoleLogs := st.consoleLogs ++ [msg] }

/-- The `page.on('request', ...)` handler (`session.ts` lines 75–81):
append a `NetworkRequest` with `status` unset. -/
def onRequest (st : SessionState) (url method : String) (timestamp : Nat) :
    SessionState :=
  { st with networkRequests := st.networkRequests ++ [⟨url, method, Option.none, timestamp⟩] }

/-- The JS matching condition `!r.status` of the response handler:
truthiness — `undefined` and `0` are both falsy, so a status of `0`
counts as "unset". -/
def statusUnset : Option Nat → Bool
  | Option.none => true
  | some n => decide (n = 0)

/-- The `networkRequests.find(r => r.url === url && !r.status)` followed by
`existing.status = status`: set the status of the first entry matching
the URL whose status is falsy; if none matches, leave the list unchanged. -/
def setFirstUnset (url : String) (status : Nat) :
    List NetworkRequest → List NetworkRequest
  | [] => []
  | r :: rs =>
      if r.url = url ∧ statusUnset r.status then
        { r with status := some status } :: rs
      else r :: setFirstUnset url status rs

/-- The `page.on('response', ...)` handler (`session.ts` lines 83–90). -/
def onResponse (st : SessionState) (url : String) (status : Nat) : SessionState :=
  { st with networkRequests := setFirstUnset url status st.networkRequests }

/-- The `getConsoleLogs(filter?)` (`session.ts` lines 136–141). -/
def getConsoleLogs (st : SessionState) (filter : Option ConsoleType) :
    List ConsoleMessage :=
  match filter with
  | some f => st.consoleLogs.filter fun log => log.type == f
  | Option.none => st.consoleLogs

/-- The `getNetworkRequests(urlFilter?)` (`session.ts` lines 143–148):
the filter is a URL substring test (`req.url.includes(urlFilter)`). -/
def getNetworkRequests (st : SessionState) (urlFilter : Option String) :
    List NetworkRequest :=
  match urlFilter with
  | some uf => st.networkRequests.filter fun req => strIncludes req.url uf
  | Option.none => st.networkRequests

/-- The `clearLogs()` (`session.ts` lines 150–153): reset both buffers. -/
def clearLogs (st : SessionState) : SessionState :=
  { st with consoleLogs := [], networkRequests := [] }

/-- Deliver a sequence of console events to the collector in order. -/
def processConsoleEvents (st : SessionState) (msgs : List ConsoleMessage) :
    SessionState :=
  msgs.foldl onConsole st

/-! ## Teardown (`BrowserSessionManager.close`, `session.ts` lines 378–386) -/

/-- Which handles are live and which teardown steps would fail, for one
run of `close()`.  `saveFails` is only reachable when a context exists
(`saveSession` returns immediately without one); the renderer stop and
browser close are guarded by optional chaining, so they can only fail
when the corresponding handle is present. -/
structure CloseEnv where
  hasContext : Bool
  hasAwrit : Bool
  hasBrowser : Bool
  saveFails : Bool
  stopFails : Bool
  closeFails : Bool
deriving DecidableEq, Repr

/-- The `close()`: `await saveSession(); await awritManager?.stop();
await browser?.close();` with no try/catch — a rejected `await` aborts
the method.  Result: the teardown statements that were reached, in
execution order, and the step whose failure aborted the run (if any). -/
def SessionManager.close (e : CloseEnv) : List String × Option String :=
  if e.hasContext && e.saveFails then
    (["saveSession"], some "saveSession")
  else if e.hasAwrit && e.stopFails then
    (["saveSession", "stopRenderer"], some "stopRenderer")
  else if e.hasBrowser && e.closeFails then
    (["saveSession", "stopRenderer", "closeBrowser"], some "closeBrowser")
  else
    (["saveSession", "stopRenderer", "closeBrowser"], Option.none)

/-! ## External renderer supervisor (`AwritManager`, `examples/usage.md`) -/

/-- The tracked subprocess handle: present or released, and whether its
stdin pipe was obtained at spawn. -/
structure AwritProc where
  hasStdin : Bool
deriving DecidableEq, Repr

/-- The supervisor's mutable state: `process` handle and `ready` flag. -/
structure AwritState where
  process : Option AwritProc
  ready : Bool
deriving DecidableEq, Repr

/-- The `this.process?.stdin` truthiness. -/
def stdinAvailable (st : AwritState) : Bool :=
  match st.process with
  | Option.none => false
  | some p => p.hasStdin

/-- What one `sendCommand` call did: the line written to the command
channel (if any) and whether the precondition failure was reported via
`console.error`.  The JS body contains no `throw`. -/
structure SendResult where
  written : Option String
  errorLogged : Bool
deriving DecidableEq, Repr

/-- The `AwritManager.sendCommand`: `if (!this.process?.stdin || !this.ready)
{ console.error(...); return; }` else write
`[command, ...args].join(' ') + '\n'` to stdin. -/
def sendCommand (st : AwritState) (command : String) (args : List String) :
    SendResult :=
  if !stdinAvailable st || !st.ready then
    { written := Option.none, errorLogged := true }
  else
    { written := some (String.intercalate " " (command :: args) ++ "\n"),
      errorLogged := false }

/-- The `AwritManager.cleanup`, run by the subprocess `exit` handler:
`this.process = null; this.ready = false;`. -/
def awritCleanup (_st : AwritState) : AwritState :=
  { process := Option.none, ready := false }

/-! ## Lemmas about chunking and packet construction -/

theorem chunks4096_length (l : List Char) :
    (chunks4096 l).length = (l.length + 4095) / 4096 := by
  induction l using chunks4096.induct with
  | case1 l hl =>
      simp [chunks4096, hl]
      simp at hl
      simp [hl]
  | case2 l hl ih =>
      have hl' : l ≠ [] := by simpa using hl
      have hpos : 0 < l.length := List.length_pos.mpr hl'
      rw [chunks4096]
      simp [hl, ih, List.length_drop]
      omega

theorem chunks4096_flatten (l : List Char) : (chunks4096 l).flatten = l := by
  induction l using chunks4096.induct with
  | case1 l hl =>
      simp [chunks4096, hl]
      simp at hl
      simp [hl]
  | case2 l hl ih =>
      rw [chunks4096]
      simp [hl, ih]

theorem chunks4096_le (l : List Char) :
    ∀ c ∈ chunks4096 l, c.length ≤ 4096 := by
  induction l using chunks4096.induct with
  | case1 l hl => simp [chunks4096, hl]
  | case2 l hl ih =>
      rw [chunks4096]
      simp [hl]
      intro c hc
      exact ih c hc

theorem chunks4096_ne_nil (l : List Char) (hl : l ≠ []) : chunks4096 l ≠ [] := by
  rw [chunks4096]
  simp [hl]

theorem mkKittyPackets_length (chs : List (List Char)) (w h : Nat) :
    (mkKittyPackets chs w h).length = chs.length := by
  simp [mkKittyPackets]

theorem mkKittyPackets_flags (chs : List (List Char)) (w h : Nat) :
    (mkKittyPackets chs w h).map packetFlag =
      (List.range chs.length).map fun i => if i = chs.length - 1 then 0 else 1 := by
  simp only [mkKittyPackets, List.map_map]
  congr 1
  funext i
  by_cases hi : i = 0 <;> simp [hi, packetFlag]

theorem range_map_last_flag (n : Nat) (hn : 0 < n) :
    ((List.range n).map fun i => if i = n - 1 then (0 : Nat) else 1) =
      List.replicate (n - 1) 1 ++ [0] := by
  obtain ⟨m, rfl⟩ : ∃ m, n = m + 1 := ⟨n - 1, by omega⟩
  rw [List.range_succ, List.map_append]
  simp only [Nat.add_sub_cancel]
  congr 1
  · apply List.eq_replicate_iff.mpr
    refine ⟨by simp, ?_⟩
    intro b hb
    simp only [List.mem_map, List.mem_range] at hb
    obtain ⟨i, hi, rfl⟩ := hb
    simp [Nat.ne_of_lt hi]
  · simp

theorem range_map_getD {α : Type} (l : List α) (d : α) :
    ((List.range l.length).map fun i => l.getD i d) = l := by
  apply List.ext_getElem
  · simp
  · intro i h1 h2
    simp only [List.getElem_map, List.getElem_range]
    rw [List.getD_eq_getElem]

theorem mkKittyPackets_payloads (chs : List (List Char)) (w h : Nat) :
    (mkKittyPackets chs w h).map packetPayload = chs := by
  simp only [mkKittyPackets, List.map_map]
  have hfun : (packetPayload ∘ fun i =>
      let m := if i = chs.length - 1 then 0 else 1
      if i = 0 then KittyPacket.first 100 w h m (chs.getD i [])
      else KittyPacket.cont m (chs.getD i [])) = fun i => chs.getD i [] := by
    funext i
    by_cases hi : i = 0 <;> simp [hi, packetPayload]
  rw [hfun, range_map_getD]

theorem base64encode_ne_nil (buf : List Nat) (hbuf : buf ≠ []) :
    base64encode buf ≠ [] := by
  match buf with
  | [] => exact absurd rfl hbuf
  | [b1] => simp [base64encode]
  | [b1, b2] => simp [base64encode]
  | b1 :: b2 :: b3 :: rest => simp [base64encode]

/-- C1: for every image buffer and size hint, `displayKitty` base64-encodes
the image, splits the encoding into chunks of at most 4096 characters,
emits a first control sequence carrying format tag 100 and the
width/height cell hints, then one continuation sequence per further
chunk; every more-data flag is 1 except the last, which is 0; and a
base64 payload of length 10000 yields exactly 3 chunks with flags
[1,1,0]. -/
theorem C1_kitty_chunked_transfer (buf : List Nat) (optW optH : Option Nat)
    (hbuf : buf ≠ []) :
    (displayKitty buf optW optH).map packetFlag =
      List.replicate ((displayKitty buf optW optH).length - 1) 1 ++ [0] ∧
    ((displayKitty buf optW optH).map packetPayload).flatten = base64encode buf ∧
    (∀ p ∈ displayKitty buf optW optH, (packetPayload p).length ≤ 4096) ∧
    (∃ m c, (displayKitty buf optW optH).head? =
      some (KittyPacket.first 100 (jsOr optW 80) (jsOr optH 40) m c)) ∧
    (∀ i (hi : i < (displayKitty buf optW optH).length), 0 < i →
      ∃ m c, (displayKitty buf optW optH).get ⟨i, hi⟩ = KittyPacket.cont m c) ∧
    (∀ s : List Char, s.length = 10000 →
      (chunks4096 s).length = 3 ∧
      (mkKittyPackets (chunks4096 s) 80 40).map packetFlag = [1, 1, 0]) := by
  have hb64 : base64encode buf ≠ [] := base64encode_ne_nil buf hbuf
  have hchs : chunks4096 (base64encode buf) ≠ [] := chunks4096_ne_nil _ hb64
  have hpos : 0 < (chunks4096 (base64encode buf)).length := List.length_pos.mpr hchs
  refine ⟨?_, ?_, ?_, ?_, ?_, ?_⟩
  · simp only [displayKitty]
    rw [mkKittyPackets_flags, mkKittyPackets_length]
    exact range_map_last_flag _ hpos
  · simp only [displayKitty]
    rw [mkKittyPackets_payloads, chunks4096_flatten]
  · simp only [displayKitty]
    intro p hp
    have hmem : packetPayload p ∈ chunks4096 (base64encode buf) := by
      rw [← mkKittyPackets_payloads (chunks4096 (base64encode buf))
        (jsOr optW 80) (jsOr optH 40)]
      exact List.mem_map_of_mem _ hp
    exact chunks4096_le _ _ hmem
  · simp only [displayKitty]
    obtain ⟨k, hk⟩ : ∃ k, (chunks4096 (base64encode buf)).length = k + 1 :=
      ⟨(chunks4096 (base64encode buf)).length - 1, by omega⟩
    refine ⟨if 0 = (chunks4096 (base64encode buf)).length - 1 then 0 else 1,
      (chunks4096 (base64encode buf)).getD 0 [], ?_⟩
    simp only [mkKittyPackets]
    rw [hk, List.range_succ_eq_map]
    simp
  · simp only [displayKitty]
    intro i hi hipos
    have hi' : i < (chunks4096 (base64encode buf)).length := by
      simpa [mkKittyPackets_length] using hi
    have hne : i ≠ 0 := by omega
    refine ⟨if i = (chunks4096 (base64encode buf)).length - 1 then 0 else 1,
      (chunks4096 (base64encode buf)).getD i [], ?_⟩
    simp [mkKittyPackets, List.get_eq_getElem, hne]
  · intro s hs
    have h3 : (chunks4096 s).length = 3 := by
      rw [chunks4096_length, hs]
    refine ⟨h3, ?_⟩
    rw [mkKittyPackets_flags, h3]
    decide

/-- Witness for C1 at the one-byte buffer `[0]`. -/
theorem C1_kitty_chunked_transfer_witness :
    ([0] : List Nat) ≠ [] ∧
    (displayKitty [0] Option.none Option.none).map packetFlag =
      List.replicate ((displayKitty [0] Option.none Option.none).length - 1) 1 ++ [0] :=
  ⟨by decide, (C1_kitty_chunked_transfer [0] Option.none Option.none (by decide)).1⟩

/-- C2: capability detection tries its probes in strict order with first
success winning — the query probe (whose I/O happens exactly when a TTY
is attached), then the iTerm2 environment-variable probe, then the sixel
terminal-type heuristic — and with no TTY and `TERM_PROGRAM=iTerm.app`
it returns the iTerm2 protocol without any I/O-based probing. -/
theorem C2_detect_strict_order (env : TermEnv) :
    ((detectGraphicsProtocol env).2 = env.isTTY) ∧
    (env.isTTY = true → env.kittyQueryResponds = true →
      (detectGraphicsProtocol env).1.protocol = GraphicsProtocol.kitty) ∧
    ((env.isTTY = false ∨ env.kittyQueryResponds = false) →
      supportsITerm2Graphics env = true →
      (detectGraphicsProtocol env).1.protocol = GraphicsProtocol.iterm2) ∧
    ((env.isTTY = false ∨ env.kittyQueryResponds = false) →
      supportsITerm2Graphics env = false → supportsSixelGraphics env = true →
      (detectGraphicsProtocol env).1.protocol = GraphicsProtocol.sixel) ∧
    (env.isTTY = false → env.termProgram = some "iTerm.app" →
      detectGraphicsProtocol env =
        (⟨GraphicsProtocol.iterm2, true, Option.none⟩, false)) := by
  have hsnd : (detectGraphicsProtocol env).2 = (supportsKittyGraphics env).2 := by
    simp only [detectGraphicsProtocol]
    split
    · rfl
    · split
      · rfl
      · split
        · rfl
        · rfl
  have hkfalse : (env.isTTY = false ∨ env.kittyQueryResponds = false) →
      (supportsKittyGraphics env).1 = false := by
    intro h1
    rcases h1 with h | h
    · simp [supportsKittyGraphics, h]
    · cases hT : env.isTTY <;> simp [supportsKittyGraphics, h, hT]
  refine ⟨?_, ?_, ?_, ?_, ?_⟩
  · rw [hsnd]
    cases h : env.isTTY <;> simp [supportsKittyGraphics, h]
  · intro h1 h2
    simp [detectGraphicsProtocol, supportsKittyGraphics, h1, h2]
  · intro h1 h2
    simp [detectGraphicsProtocol, hkfalse h1, h2]
  · intro h1 h2 h3
    simp [detectGraphicsProtocol, hkfalse h1, h2, h3]
  · intro h1 h2
    simp [detectGraphicsProtocol, supportsKittyGraphics, supportsITerm2Graphics, h1, h2]

/-- Witness for C2: no TTY, `TERM_PROGRAM=iTerm.app` yields the iTerm2
protocol with no I/O-based probing. -/
theorem C2_detect_strict_order_witness :
    detectGraphicsProtocol
        ⟨false, false, some "iTerm.app", Option.none, Option.none, Option.none⟩ =
      (⟨GraphicsProtocol.iterm2, true, Option.none⟩, false) :=
  (C2_detect_strict_order
      ⟨false, false, some "iTerm.app", Option.none, Option.none, Option.none⟩).2.2.2.2
    rfl rfl

/-- Counterexample to C3 as stated: JS `!r.status` is a truthiness test,
so a status of `0` still counts as "unset".  After `request u`,
`response (u, 0)`, `response (u, 200)`, the single recorded entry's
status is first set to `0` and then overwritten with `200` — two status
transitions for one recorded request. -/
theorem C3_counterexample :
    ((onResponse (onRequest initialSessionState "u" "GET" 0) "u" 0).networkRequests.map
        NetworkRequest.status = [some 0]) ∧
    ((onResponse (onResponse (onRequest initialSessionState "u" "GET" 0) "u" 0)
        "u" 200).networkRequests.map NetworkRequest.status = [some 200]) := by
  decide

/-- C3 (amended): a response mutates no entry when nothing matches,
preserves the entry count, sets the status of the first entry matching
(url, status-falsy) leaving all other entries untouched, and an entry
whose status was set to a *nonzero* value is never mutated again (the
at-most-one-transition property holds for nonzero statuses; a zero
status is falsy in JS and may be overwritten). -/
theorem C3_response_matching (l : List NetworkRequest) (url : String) (st : Nat) :
    ((setFirstUnset url st l).length = l.length) ∧
    ((∀ r ∈ l, ¬(r.url = url ∧ statusUnset r.status = true)) →
      setFirstUnset url st l = l) ∧
    (∀ (i : Nat) (r : NetworkRequest), l[i]? = some r → r.url = url →
      statusUnset r.status = true →
      (∀ (j : Nat) (r' : NetworkRequest), j < i → l[j]? = some r' →
        ¬(r'.url = url ∧ statusUnset r'.status = true)) →
      (setFirstUnset url st l)[i]? = some { r with status := some st } ∧
      (∀ j : Nat, j ≠ i → (setFirstUnset url st l)[j]? = l[j]?)) ∧
    (∀ (i : Nat) (r : NetworkRequest) (s : Nat), l[i]? = some r →
      r.status = some s → s ≠ 0 → (setFirstUnset url st l)[i]? = some r) := by
  refine ⟨?_, ?_, ?_, ?_⟩
  · induction l with
    | nil => simp [setFirstUnset]
    | cons r rs ih =>
        rw [setFirstUnset]
        split
        · simp
        · simp [ih]
  · induction l with
    | nil => intro; simp [setFirstUnset]
    | cons r rs ih =>
        intro h
        rw [setFirstUnset]
        split
        · exact absurd ‹r.url = url ∧ statusUnset r.status = true›
            (h r (List.mem_cons_self r rs))
        · rw [ih fun r' hr' => h r' (List.mem_cons_of_mem r hr')]
  · induction l with
    | nil =>
        intro i r hget
        rw [List.getElem?_nil] at hget
        exact Option.noConfusion hget
    | cons r0 rs ih =>
        intro i r hget hurl hunset hfirst
        cases i with
        | zero =>
            simp only [List.getElem?_cons_zero, Option.some.injEq] at hget
            subst hget
            rw [setFirstUnset, if_pos ⟨hurl, hunset⟩]
            refine ⟨by simp, ?_⟩
            intro j hj
            cases j with
            | zero => exact absurd rfl hj
            | succ j => simp
        | succ i =>
            have h0 : ¬(r0.url = url ∧ statusUnset r0.status = true) :=
              hfirst 0 r0 (Nat.succ_pos i) (by simp)
            rw [setFirstUnset, if_neg h0]
            simp only [List.getElem?_cons_succ] at hget
            have hfirst' : ∀ (j : Nat) (r' : NetworkRequest), j < i →
                rs[j]? = some r' →
                ¬(r'.url = url ∧ statusUnset r'.status = true) := by
              intro j r' hj hr'
              exact hfirst (j + 1) r' (Nat.succ_lt_succ hj) (by simpa using hr')
            obtain ⟨ha, hb⟩ := ih i r hget hurl hunset hfirst'
            refine ⟨by simpa using ha, ?_⟩
            intro j hj
            cases j with
            | zero => simp
            | succ j =>
                simp only [List.getElem?_cons_succ]
                exact hb j (by omega)
  · induction l with
    | nil =>
        intro i r s hget
        rw [List.getElem?_nil] at hget
        exact Option.noConfusion hget
    | cons r0 rs ih =>
        intro i r s hget hstatus hs
        rw [setFirstUnset]
        split
        next hmatch =>
          cases i with
          | zero =>
              simp only [List.getElem?_cons_zero, Option.some.injEq] at hget
              subst hget
              have hu : statusUnset r0.status = true := hmatch.2
              rw [hstatus] at hu
              simp [statusUnset] at hu
              exact absurd hu hs
          | succ i =>
              simp only [List.getElem?_cons_succ] at hget ⊢
              exact hget
        next hmatch =>
          cases i with
          | zero => simpa using hget
          | succ i =>
              simp only [List.getElem?_cons_succ] at hget ⊢
              exact ih i r s hget hstatus hs

/-- Witness for C3 (amended): an entry already resolved with the nonzero
status 404 is untouched by a further response for the same URL. -/
theorem C3_response_matching_witness :
    (setFirstUnset "u" 200 [⟨"u", "GET", some 404, 0⟩])[0]? =
      some ⟨"u", "GET", some 404, 0⟩ :=
  (C3_response_matching [⟨"u", "GET", some 404, 0⟩] "u" 200).2.2.2
    0 ⟨"u", "GET", some 404, 0⟩ 404 rfl rfl (by decide)

/-- Counterexample to C4 as stated: `close()` has no try/catch, so when a
context exists and `saveSession` rejects, the renderer stop and browser
close are never reached — the failure of the first step does prevent the
subsequent teardown steps from running. -/
theorem C4_counterexample :
    SessionManager.close ⟨true, true, true, true, false, false⟩ =
      (["saveSession"], some "saveSession") ∧
    "stopRenderer" ∉ (SessionManager.close ⟨true, true, true, true, true, true⟩).1 ∧
    "closeBrowser" ∉ (SessionManager.close ⟨true, true, true, true, true, true⟩).1 := by
  decide

/-- C4 (amended): `close()` performs persist-state, stop-renderer and
release-browser in that fixed sequence, but teardown is not best-effort:
the executed statements always form a prefix of the full sequence
starting at `saveSession`, the last executed statement is the failing
one when a step fails, and all three run exactly when no step fails
before the end. -/
theorem C4_close_teardown (hc ha hb sf tf cf : Bool) :
    ((SessionManager.close ⟨hc, ha, hb, sf, tf, cf⟩).1.isPrefixOf
        ["saveSession", "stopRenderer", "closeBrowser"] = true) ∧
    ((SessionManager.close ⟨hc, ha, hb, sf, tf, cf⟩).1.head? = some "saveSession") ∧
    ((SessionManager.close ⟨hc, ha, hb, sf, tf, cf⟩).1.getLast? =
      some (((SessionManager.close ⟨hc, ha, hb, sf, tf, cf⟩).2).getD "closeBrowser")) ∧
    ((SessionManager.close ⟨hc, ha, hb, sf, tf, cf⟩).2 = Option.none →
      (SessionManager.close ⟨hc, ha, hb, sf, tf, cf⟩).1 =
        ["saveSession", "stopRenderer", "closeBrowser"]) := by
  revert hc ha hb sf tf cf
  decide

/-- Witness for C4 (amended): with no failing step all three teardown
statements run. -/
theorem C4_close_teardown_witness :
    (SessionManager.close ⟨false, false, false, false, false, false⟩).1 =
      ["saveSession", "stopRenderer", "closeBrowser"] :=
  (C4_close_teardown false false false false false false).2.2.2 rfl

/-- A terminal environment with no TTY attached and no recognized
terminal-identifying environment variables. -/
def envNoGraphics : TermEnv :=
  ⟨false, false, Option.none, Option.none, Option.none, Option.none⟩

/-- Counterexample to C5 as stated: with no supported protocol the code
does not degrade gracefully — `validateTerminalSupport` requests
`process.exit(1)` and `TerminalDisplay.setup` throws the reason, so
the system does crash rather than merely skipping inline display. -/
theorem C5_counterexample :
    (detectGraphicsProtocol envNoGraphics).1.protocol = GraphicsProtocol.none ∧
    (validateTerminalSupport envNoGraphics).2 = some 1 ∧
    TerminalDisplay.setup envNoGraphics = Except.error noProtocolReason :=
  ⟨by decide, by decide, rfl⟩

set_option maxRecDepth 8192 in
/-- C5 (amended): when detection yields `'none'`, the missing capability
is surfaced as an explanatory message block listing the compatible
terminals (Kitty, Ghostty, iTerm2, WezTerm), but the code then exits:
`validateTerminalSupport` requests process exit code 1 and
`TerminalDisplay.setup` throws the reason instead of proceeding. -/
theorem C5_none_capability (env : TermEnv)
    (h : (detectGraphicsProtocol env).1.supported = false) :
    (detectGraphicsProtocol env).1 =
      ⟨GraphicsProtocol.none, false, some noProtocolReason⟩ ∧
    (validateTerminalSupport env).2 = some 1 ∧
    strIncludes (String.intercalate "\n" (validateTerminalSupport env).1)
      "Kitty" = true ∧
    strIncludes (String.intercalate "\n" (validateTerminalSupport env).1)
      "Ghostty" = true ∧
    strIncludes (String.intercalate "\n" (validateTerminalSupport env).1)
      "iTerm2" = true ∧
    strIncludes (String.intercalate "\n" (validateTerminalSupport env).1)
      "WezTerm" = true ∧
    TerminalDisplay.setup env = Except.error noProtocolReason := by
  have hcaps : (detectGraphicsProtocol env).1 =
      ⟨GraphicsProtocol.none, false, some noProtocolReason⟩ := by
    by_cases h1 : (supportsKittyGraphics env).1 = true
    · exfalso
      simp [detectGraphicsProtocol, h1] at h
    · by_cases h2 : supportsITerm2Graphics env = true
      · exfalso
        simp [detectGraphicsProtocol, h1, h2] at h
      · by_cases h3 : supportsSixelGraphics env = true
        · exfalso
          simp [detectGraphicsProtocol, h1, h2, h3] at h
        · simp [detectGraphicsProtocol, h1, h2, h3]
  refine ⟨hcaps, ?_, ?_, ?_, ?_, ?_, ?_⟩
  · simp [validateTerminalSupport, hcaps]
  · simp only [validateTerminalSupport, hcaps]
    decide
  · simp only [validateTerminalSupport, hcaps]
    decide
  · simp only [validateTerminalSupport, hcaps]
    decide
  · simp only [validateTerminalSupport, hcaps]
    decide
  · simp [TerminalDisplay.setup, hcaps]

/-- Witness for C5 (amended) at the no-TTY no-variables environment. -/
theorem C5_none_capability_witness :
    (validateTerminalSupport envNoGraphics).2 = some 1 :=
  (C5_none_capability envNoGraphics (by decide)).2.1

/-- C6: whenever the supervisor is not ready or its command channel is
unavailable — in particular right after the subprocess exit handler has
run `cleanup`, releasing the handle — `sendCommand` writes nothing and
reports the precondition failure; the body contains no throw, so the
call never raises to the caller. -/
theorem C6_sendCommand_noop :
    (∀ (st : AwritState) (cmd : String) (args : List String),
      stdinAvailable st = false ∨ st.ready = false →
      sendCommand st cmd args = ⟨Option.none, true⟩) ∧
    (∀ (st : AwritState) (cmd : String) (args : List String),
      sendCommand (awritCleanup st) cmd args = ⟨Option.none, true⟩) := by
  constructor
  · intro st cmd args h
    rcases h with h | h <;> simp [sendCommand, h]
  · intro st cmd args
    simp [sendCommand, awritCleanup, stdinAvailable]

/-- Witness for C6: a released handle makes `sendCommand` a reported
no-op. -/
theorem C6_sendCommand_noop_witness :
    sendCommand ⟨Option.none, true⟩ "navigate" ["http://localhost:3000"] =
      ⟨Option.none, true⟩ :=
  C6_sendCommand_noop.1 ⟨Option.none, true⟩ "navigate" ["http://localhost:3000"]
    (Or.inl rfl)

set_option maxRecDepth 8192 in
/-- Counterexample to C7 as stated: the reason string returned by
`detectGraphicsProtocol` does not mention WezTerm. -/
theorem C7_counterexample :
    (detectGraphicsProtocol envNoGraphics).1 =
      ⟨GraphicsProtocol.none, false, some noProtocolReason⟩ ∧
    strIncludes noProtocolReason "WezTerm" = false := by
  decide

set_option maxRecDepth 8192 in
/-- C7 (amended): with no TTY and no recognized terminal-identifying
environment variables, detection yields capability `'none'` whose reason
string lists Kitty, Ghostty, iTerm2 and Sixel-compatible terminals —
but not WezTerm. -/
theorem C7_none_reason (env : TermEnv)
    (h1 : env.isTTY = false)
    (h2 : env.termProgram ≠ some "iTerm.app")
    (h3 : env.lcTerminal ≠ some "iTerm2")
    (h4 : strIncludes (env.term.getD "") "xterm" = false)
    (h5 : strIncludes (env.term.getD "") "mlterm" = false)
    (h6 : strIncludes (env.term.getD "") "yaft" = false)
    (h7 : (env.xtermVersion.getD "").length = 0) :
    (detectGraphicsProtocol env).1 =
      ⟨GraphicsProtocol.none, false, some noProtocolReason⟩ ∧
    strIncludes noProtocolReason "Kitty" = true ∧
    strIncludes noProtocolReason "Ghostty" = true ∧
    strIncludes noProtocolReason "iTerm2" = true ∧
    strIncludes noProtocolReason "Sixel-compatible" = true ∧
    strIncludes noProtocolReason "WezTerm" = false := by
  have hk : (supportsKittyGraphics env).1 = false := by
    simp [supportsKittyGraphics, h1]
  have hi : supportsITerm2Graphics env = false := by
    simp only [supportsITerm2Graphics, Bool.or_eq_false_iff,
      beq_eq_false_iff_ne, ne_eq]
    exact ⟨h2, h3⟩
  have hs : supportsSixelGraphics env = false := by
    simp only [supportsSixelGraphics, Bool.or_eq_false_iff]
    refine ⟨⟨⟨h4, h5⟩, h6⟩, ?_⟩
    simp [h7]
  refine ⟨?_, by decide, by decide, by decide, by decide, by decide⟩
  simp [detectGraphicsProtocol, hk, hi, hs]

/-- Witness for C7 (amended) at the no-TTY no-variables environment. -/
theorem C7_none_reason_witness :
    (detectGraphicsProtocol envNoGraphics).1 =
      ⟨GraphicsProtocol.none, false, some noProtocolReason⟩ :=
  (C7_none_reason envNoGraphics (by decide) (by decide) (by decide)
    (by decide) (by decide) (by decide) (by decide)).1

/-- C8: `clearLogs` empties both buffers, so any retrieval performed
immediately afterwards — console logs with or without a severity filter,
network requests with or without a URL filter — returns the empty
sequence. -/
theorem C8_clear_then_empty (st : SessionState) (f : Option ConsoleType)
    (uf : Option String) :
    getConsoleLogs (clearLogs st) f = [] ∧
    getNetworkRequests (clearLogs st) uf = [] := by
  cases f <;> cases uf <;> simp [getConsoleLogs, getNetworkRequests, clearLogs]

/-- Console events accumulate at the end of the buffer in arrival order. -/
theorem processConsoleEvents_consoleLogs (msgs : List ConsoleMessage)
    (st : SessionState) :
    (processConsoleEvents st msgs).consoleLogs = st.consoleLogs ++ msgs := by
  induction msgs generalizing st with
  | nil => simp [processConsoleEvents]
  | cons m ms ih =>
      show (processConsoleEvents (onConsole st m) ms).consoleLogs = _
      rw [ih]
      simp [onConsole]

/-- C9: after delivering any sequence of console events, unfiltered
retrieval returns all recorded messages in exact arrival order, and
filtered retrieval returns exactly the subsequence with the requested
severity, in the same order. -/
theorem C9_console_retrieval (st : SessionState) (msgs : List ConsoleMessage)
    (f : ConsoleType) :
    getConsoleLogs (processConsoleEvents st msgs) Option.none =
      st.consoleLogs ++ msgs ∧
    getConsoleLogs (processConsoleEvents st msgs) (some f) =
      (st.consoleLogs ++ msgs).filter (fun m => m.type == f) := by
  refine ⟨?_, ?_⟩ <;> simp [getConsoleLogs, processConsoleEvents_consoleLogs]

/-- C10: the capability record returned by detection is internally
consistent — `supported` is true exactly when the protocol is not
`'none'`, and a reason string is present exactly when it is `'none'`. -/
theorem C10_capability_consistency (env : TermEnv) :
    (detectGraphicsProtocol env).1.supported =
      !protocolIsNone (detectGraphicsProtocol env).1.protocol ∧
    (detectGraphicsProtocol env).1.reason.isSome =
      protocolIsNone (detectGraphicsProtocol env).1.protocol := by
  simp only [detectGraphicsProtocol]
  split
  · simp [protocolIsNone]
  · split
    · simp [protocolIsNone]
    · split
      · simp [protocolIsNone]
      · simp [protocolIsNone]
